import Mathlib

/-!
Verification of the geographic heat-map core of the `heat-map` repository.

The Python sources `heatmap_generator.py`, `svg_renderer.py` and `map_data.py`
are shallowly embedded below.  Python floats are modelled as exact rationals
(`ℚ`), Python ints as `ℤ` (grid indices) or `ℕ` (the resolution), Python
exceptions as `Except PyExn`, and the numpy occupancy grid as a function
`ℤ × ℤ → ℚ`.  The float literals `0.05`, `0.9` and `0.4` of the source are the
exact rationals `5/100`, `9/10` and `4/10` here.
-/

namespace HeatMap

/-- Python `int()` applied to a real value: truncation toward zero
(`int(-0.5) = 0`, `int(1.5) = 1`). -/
def pyInt (q : ℚ) : ℤ := if q < 0 then -⌊-q⌋ else ⌊q⌋

/-- A bounding box `(min_lat, min_lon, max_lat, max_lon)`, the tuple layout
used throughout `heatmap_generator.py`. -/
abbrev Bounds := ℚ × ℚ × ℚ × ℚ

/-- Exceptions.  The first three are the Python exceptions that the embedded
code can actually produce; `emptyInputError` and `degenerateBoundsError` are
the names that the specification's error taxonomy (section 7 of the spec)
postulates.  No code in the repository defines or raises either of them, so no
embedded function ever returns them; they are present only so that statements
about the specification's taxonomy can be written down. -/
inductive PyExn where
  | zeroDivisionError
  | valueError
  | keyError
  | emptyInputError
  | degenerateBoundsError
  deriving DecidableEq, Repr

/-- Python `min` over a list (the `[]` case is unreachable in the embedded
code, which always guards by an emptiness check first, mirroring the source). -/
def listMin : List ℚ → ℚ
  | [] => 0
  | x :: xs => xs.foldl min x

/-- Python `max` over a list (same remark as `listMin`). -/
def listMax : List ℚ → ℚ
  | [] => 0
  | x :: xs => xs.foldl max x

namespace HeatmapGenerator

/-- `HeatmapGenerator._calculate_bounds`.  The `gps_data` dict is embedded as
the list of its values (one list of `(lat, lon)` points per activity, the
activity ids being irrelevant to the computation). -/
def calculate_bounds (gps_data : List (List (ℚ × ℚ))) : Bounds :=
  let all_points := gps_data.flatten
  if all_points.isEmpty then (0, 0, 0, 0)
  else
    let lats := all_points.map Prod.fst
    let lons := all_points.map Prod.snd
    let min_lat := listMin lats
    let max_lat := listMax lats
    let min_lon := listMin lons
    let max_lon := listMax lons
    let lat_margin := (max_lat - min_lat) * (5 / 100)
    let lon_margin := (max_lon - min_lon) * (5 / 100)
    (min_lat - lat_margin, min_lon - lon_margin, max_lat + lat_margin, max_lon + lon_margin)

/-- `HeatmapGenerator._setup_grid`: computes the two linear scales.  Python
raises `ZeroDivisionError` when a span is zero; the grid of zeros is created
only after both divisions succeed (see `generate_heatmap`). -/
def setup_grid (resolution : ℕ) (bounds : Bounds) : Except PyExn (ℚ × ℚ) :=
  let min_lat := bounds.1
  let min_lon := bounds.2.1
  let max_lat := bounds.2.2.1
  let max_lon := bounds.2.2.2
  if max_lat - min_lat = 0 then .error .zeroDivisionError
  else if max_lon - min_lon = 0 then .error .zeroDivisionError
  else .ok ((resolution : ℚ) / (max_lat - min_lat), (resolution : ℚ) / (max_lon - min_lon))

/-- `HeatmapGenerator._lat_lon_to_grid`: truncate the scaled offsets with
`int()`, then clamp each index into `[0, resolution-1]`. -/
def lat_lon_to_grid (resolution : ℕ) (bounds : Bounds) (lat_scale lon_scale lat lon : ℚ) :
    ℤ × ℤ :=
  let min_lat := bounds.1
  let min_lon := bounds.2.1
  let grid_lat := pyInt ((lat - min_lat) * lat_scale)
  let grid_lon := pyInt ((lon - min_lon) * lon_scale)
  (max 0 (min ((resolution : ℤ) - 1) grid_lat), max 0 (min ((resolution : ℤ) - 1) grid_lon))

/-- `HeatmapGenerator._grid_to_lat_lon`. -/
def grid_to_lat_lon (bounds : Bounds) (lat_scale lon_scale : ℚ) (grid_lat grid_lon : ℤ) :
    ℚ × ℚ :=
  (bounds.1 + (grid_lat : ℚ) / lat_scale, bounds.2.1 + (grid_lon : ℚ) / lon_scale)

/-- The loop body of `HeatmapGenerator._bresenham_line` (`for _ in range(n)`),
with the loop counter as explicit fuel and the loop state `(x, y, error)`
passed explicitly.  `dx2` and `dy2` are the doubled deltas of the source. -/
def bresLoop (x_inc y_inc dx2 dy2 : ℤ) : ℕ → ℤ → ℤ → ℤ → List (ℤ × ℤ)
  | 0, _, _, _ => []
  | n + 1, x, y, error =>
    (x, y) ::
      (if 0 < error then bresLoop x_inc y_inc dx2 dy2 n (x + x_inc) y (error - dy2)
       else bresLoop x_inc y_inc dx2 dy2 n x (y + y_inc) (error + dx2))

/-- `HeatmapGenerator._bresenham_line`. -/
def bresenham_line (x0 y0 x1 y1 : ℤ) : List (ℤ × ℤ) :=
  let dx := (x1 - x0).natAbs
  let dy := (y1 - y0).natAbs
  let n := 1 + dx + dy
  let x_inc : ℤ := if x0 < x1 then 1 else -1
  let y_inc : ℤ := if y0 < y1 then 1 else -1
  bresLoop x_inc y_inc (2 * (dx : ℤ)) (2 * (dy : ℤ)) n x0 y0 ((dx : ℤ) - (dy : ℤ))

/-- The numpy occupancy grid, as a total function on integer cell indices. -/
abbrev Grid := ℤ × ℤ → ℚ

/-- `HeatmapGenerator._add_line_to_grid`. -/
def add_line_to_grid (resolution : ℕ) (bounds : Bounds) (lat_scale lon_scale : ℚ)
    (grid : Grid) (start_point end_point : ℚ × ℚ) : Grid :=
  let s := lat_lon_to_grid resolution bounds lat_scale lon_scale start_point.1 start_point.2
  let e := lat_lon_to_grid resolution bounds lat_scale lon_scale end_point.1 end_point.2
  (bresenham_line s.1 s.2 e.1 e.2).foldl
    (fun g c =>
      if 0 ≤ c.1 ∧ c.1 < (resolution : ℤ) ∧ 0 ≤ c.2 ∧ c.2 < (resolution : ℤ) then
        fun c' => if c' = c then 1 else g c'
      else g)
    grid

/-- `HeatmapGenerator.generate_heatmap` on a generator whose stored bounds are
`bounds0` (`None` for a freshly constructed generator).  On success it returns
the bounds, the two scales and the occupancy grid; a zero span surfaces as the
`ZeroDivisionError` of `_setup_grid`, raised before any grid is created. -/
def generate_heatmap (resolution : ℕ) (bounds0 : Option Bounds)
    (gps_data : List (List (ℚ × ℚ))) : Except PyExn (Bounds × ℚ × ℚ × Grid) :=
  let bounds := match bounds0 with
    | none => calculate_bounds gps_data
    | some b => b
  match setup_grid resolution bounds with
  | .error e => .error e
  | .ok (lat_scale, lon_scale) =>
    let grid0 : Grid := fun _ => 0
    let grid := gps_data.foldl
      (fun g activity_points =>
        if activity_points.length < 2 then g
        else
          (activity_points.zip activity_points.tail).foldl
            (fun g' p => add_line_to_grid resolution bounds lat_scale lon_scale g' p.1 p.2) g)
      grid0
    .ok (bounds, lat_scale, lon_scale, grid)

/-- The visited mask of `HeatmapGenerator._trace_path`. -/
abbrev Visited := ℤ × ℤ → Bool

/-- The `(di, dj)` neighbor offsets in the iteration order of the source
(`di` outer, `dj` inner, skipping `(0, 0)`). -/
def neighbor_offsets : List (ℤ × ℤ) :=
  [(-1, -1), (-1, 0), (-1, 1), (0, -1), (0, 1), (1, -1), (1, 0), (1, 1)]

/-- The `while stack` loop of `HeatmapGenerator._trace_path`.  The Python list
used as a stack (push/pop at the end) is modelled head-first, so the eligible
neighbors are pushed in reversed iteration order.  The fuel bounds the number
of loop iterations; the source loop terminates because every iteration either
pops a stack entry or marks a fresh in-range cell visited. -/
def trace_path_loop (resolution : ℕ) (grid : Grid) :
    ℕ → List (ℤ × ℤ) → Visited → List (ℤ × ℤ) → List (ℤ × ℤ) × Visited
  | 0, _, visited, path => (path, visited)
  | _ + 1, [], visited, path => (path, visited)
  | fuel + 1, c :: stack, visited, path =>
    if visited c = true ∨ grid c = 0 then
      trace_path_loop resolution grid fuel stack visited path
    else
      let visited' : Visited := fun c' => if c' = c then true else visited c'
      let neighbors :=
        (neighbor_offsets.map fun d => (c.1 + d.1, c.2 + d.2)).filter fun m =>
          decide (0 ≤ m.1 ∧ m.1 < (resolution : ℤ) ∧ 0 ≤ m.2 ∧ m.2 < (resolution : ℤ) ∧
            visited' m = false ∧ 0 < grid m)
      trace_path_loop resolution grid fuel (neighbors.reverse ++ stack) visited' (path ++ [c])

/-- `HeatmapGenerator._trace_path`. -/
def trace_path (resolution : ℕ) (grid : Grid) (start_i start_j : ℤ) (visited : Visited) :
    List (ℤ × ℤ) × Visited :=
  trace_path_loop resolution grid (1 + 9 * resolution * resolution)
    [(start_i, start_j)] visited []

/-- `HeatmapGenerator.get_heatmap_paths` on a generator with the given stored
state.  `grid = none` models `self.grid is None` (no heatmap generated yet). -/
def get_heatmap_paths (resolution : ℕ) (bounds : Bounds) (lat_scale lon_scale : ℚ)
    (grid : Option Grid) : List (List (ℚ × ℚ)) :=
  match grid with
  | none => []
  | some g =>
    let init : List (List (ℚ × ℚ)) × Visited := ([], fun _ => false)
    let result := (List.range resolution).foldl
      (fun acc i =>
        (List.range resolution).foldl
          (fun (acc' : List (List (ℚ × ℚ)) × Visited) (j : ℕ) =>
            if 0 < g ((i : ℤ), (j : ℤ)) ∧ acc'.2 ((i : ℤ), (j : ℤ)) = false then
              let r := trace_path resolution g (i : ℤ) (j : ℤ) acc'.2
              if 1 < r.1.length then
                (acc'.1 ++ [r.1.map fun c => grid_to_lat_lon bounds lat_scale lon_scale c.1 c.2],
                 r.2)
              else (acc'.1, r.2)
            else acc')
          acc)
      init
    result.1

/-- Chebyshev distance between two grid cells. -/
def chebDist (p q : ℤ × ℤ) : ℕ := max (q.1 - p.1).natAbs (q.2 - p.2).natAbs

/-- One step of the discrete-line walk: move one cell along the x axis by
`x_inc`, or one cell along the y axis by `y_inc`. -/
def bresStep (x_inc y_inc : ℤ) (p q : ℤ × ℤ) : Prop :=
  (q.1 = p.1 + x_inc ∧ q.2 = p.2) ∨ (q.1 = p.1 ∧ q.2 = p.2 + y_inc)

end HeatmapGenerator

namespace MapDataProvider

/-- A GeoJSON geometry, the closed set of type strings that `map_data.py`
dispatches on.  Coordinates are stored in the feature's native `(lon, lat)`
order, exactly as in the JSON. -/
inductive Geometry where
  | point (c : ℚ × ℚ)
  | multiPoint (cs : List (ℚ × ℚ))
  | lineString (cs : List (ℚ × ℚ))
  | polygon (rings : List (List (ℚ × ℚ)))
  | multiLineString (lines : List (List (ℚ × ℚ)))
  | multiPolygon (polygons : List (List (List (ℚ × ℚ))))
  | other
  deriving DecidableEq

/-- The innermost `check_coordinates` test of
`MapDataProvider._geometry_intersects_bounds`: is the `(lon, lat)` pair inside
the `(min_lat, min_lon, max_lat, max_lon)` box? -/
def coord_in_bounds (bounds : Bounds) (c : ℚ × ℚ) : Bool :=
  decide (bounds.2.1 ≤ c.1 ∧ c.1 ≤ bounds.2.2.2 ∧ bounds.1 ≤ c.2 ∧ c.2 ≤ bounds.2.2.1)

/-- `MapDataProvider._geometry_intersects_bounds`: some vertex of the geometry
lies inside the box.  (`any` over an empty coordinate list is `false`, which
also covers the `if not coordinates: return False` guard of the source.) -/
def geometry_intersects_bounds (geometry : Geometry) (bounds : Bounds) : Bool :=
  match geometry with
  | .point c => coord_in_bounds bounds c
  | .multiPoint cs => cs.any (coord_in_bounds bounds)
  | .lineString cs => cs.any (coord_in_bounds bounds)
  | .polygon rings => rings.any fun ring => ring.any (coord_in_bounds bounds)
  | .multiLineString lines => lines.any fun line => line.any (coord_in_bounds bounds)
  | .multiPolygon polygons =>
    polygons.any fun polygon => polygon.any fun ring => ring.any (coord_in_bounds bounds)
  | .other => false

/-- `MapDataProvider._extract_paths_from_geometry`: flatten the geometry into
independent rings, swapping every stored `(lon, lat)` pair to the internal
`(lat, lon)` order. -/
def extract_paths_from_geometry (geometry : Geometry) : List (List (ℚ × ℚ)) :=
  match geometry with
  | .lineString cs => [cs.map fun c => (c.2, c.1)]
  | .polygon rings => rings.map fun ring => ring.map fun c => (c.2, c.1)
  | .multiLineString lines => lines.map fun line => line.map fun c => (c.2, c.1)
  | .multiPolygon polygons =>
    polygons.flatMap fun polygon => polygon.map fun ring => ring.map fun c => (c.2, c.1)
  | _ => []

end MapDataProvider

namespace SVGRenderer

/-- The projection dict built by `_setup_equirectangular_projection`. -/
structure EquirectProjection where
  scale : ℚ
  center_lat : ℚ
  center_lon : ℚ
  offset_x : ℚ
  offset_y : ℚ
  deriving DecidableEq

/-- `self.projection`: either the equirectangular dict (keys `center_lat`,
`center_lon`) or the planar dict built by the UTM/Albers setups (keys
`center_x`, `center_y`). -/
inductive Projection where
  | equirect (p : EquirectProjection)
  | planar (scale center_x center_y offset_x offset_y : ℚ)
  deriving DecidableEq

/-- A node of the XML document built through `xml.etree.ElementTree`. -/
inductive SvgNode where
  | elem (tag : String) (attrs : List (String × String)) (children : List SvgNode)

/-- The mutable fields of an `SVGRenderer` instance.  The pyproj
`Transformer` objects of the source are external library state; they are
embedded as opaque coordinate functions `(x, y) ↦ (x', y')` applied with
`always_xy` argument order. -/
structure RendererState where
  width : ℚ
  height : ℚ
  svg_root : Option SvgNode
  projection : Option Projection
  projection_type : String
  utm_transformer : Option ((ℚ × ℚ) → ℚ × ℚ)
  albers_transformer : Option ((ℚ × ℚ) → ℚ × ℚ)

/-- `SVGRenderer.__init__`. -/
def RendererState.init (width height : ℚ) : RendererState :=
  { width := width, height := height, svg_root := none, projection := none,
    projection_type := "equirectangular", utm_transformer := none, albers_transformer := none }

/-- The projection dict built by `SVGRenderer._setup_equirectangular_projection`
on the success path, i.e. when both spans are nonzero so that neither division
raises (the zero-span `ZeroDivisionError` of lines 40-41 is modelled in
`setup_equirectangular_projection_state` below). -/
def setup_equirectangular_projection (width height : ℚ) (bounds : Bounds) :
    EquirectProjection :=
  let min_lat := bounds.1
  let min_lon := bounds.2.1
  let max_lat := bounds.2.2.1
  let max_lon := bounds.2.2.2
  let lat_range := max_lat - min_lat
  let lon_range := max_lon - min_lon
  let lat_scale := height / lat_range
  let lon_scale := width / lon_range
  let scale := min lat_scale lon_scale * (9 / 10)
  { scale := scale
    center_lat := (min_lat + max_lat) / 2
    center_lon := (min_lon + max_lon) / 2
    offset_x := width / 2
    offset_y := height / 2 }

/-- `SVGRenderer._setup_equirectangular_projection` as a state transformer:
Python computes `height / lat_range` and then `width / lon_range`, so a zero
span on either axis raises `ZeroDivisionError` before any projection is
stored; on success the dict of `setup_equirectangular_projection` is stored. -/
def setup_equirectangular_projection_state (st : RendererState) (bounds : Bounds) :
    Except PyExn RendererState :=
  let lat_range := bounds.2.2.1 - bounds.1
  let lon_range := bounds.2.2.2 - bounds.2.1
  if lat_range = 0 then .error .zeroDivisionError
  else if lon_range = 0 then .error .zeroDivisionError
  else
    .ok { st with
      projection := some (.equirect (setup_equirectangular_projection st.width st.height bounds)) }

/-- `SVGRenderer._setup_utm_projection`, with the pyproj UTM transformer
abstracted as `tr`.  Python divides `width / x_range` and then
`height / y_range`, so a zero range in the transformed coordinates raises
`ZeroDivisionError`. -/
def setup_utm_projection (tr : (ℚ × ℚ) → ℚ × ℚ) (st : RendererState) (bounds : Bounds) :
    Except PyExn RendererState :=
  let mins := tr (bounds.2.1, bounds.1)
  let maxs := tr (bounds.2.2.2, bounds.2.2.1)
  let x_range := maxs.1 - mins.1
  let y_range := maxs.2 - mins.2
  if x_range = 0 then .error .zeroDivisionError
  else if y_range = 0 then .error .zeroDivisionError
  else
    let scale := min (st.width / x_range) (st.height / y_range) * (9 / 10)
    .ok { st with
      utm_transformer := some tr
      projection := some (.planar scale ((mins.1 + maxs.1) / 2) ((mins.2 + maxs.2) / 2)
        (st.width / 2) (st.height / 2)) }

/-- `SVGRenderer._setup_albers_projection`, with the pyproj Albers transformer
abstracted as `tr`; includes the 40% eastward expansion of the source, and the
`ZeroDivisionError` that Python raises when the (expanded) x range or the
y range is zero. -/
def setup_albers_projection (tr : (ℚ × ℚ) → ℚ × ℚ) (st : RendererState) (bounds : Bounds) :
    Except PyExn RendererState :=
  let mins := tr (bounds.2.1, bounds.1)
  let maxs := tr (bounds.2.2.2, bounds.2.2.1)
  let x_range := maxs.1 - mins.1
  let y_range := maxs.2 - mins.2
  let expanded_max_x := maxs.1 + x_range * (4 / 10)
  let x_range' := expanded_max_x - mins.1
  if x_range' = 0 then .error .zeroDivisionError
  else if y_range = 0 then .error .zeroDivisionError
  else
    let scale := min (st.width / x_range') (st.height / y_range) * (9 / 10)
    .ok { st with
      albers_transformer := some tr
      projection := some (.planar scale ((mins.1 + expanded_max_x) / 2) ((mins.2 + maxs.2) / 2)
        (st.width / 2) (st.height / 2)) }

/-- `SVGRenderer.setup_projection`.  `pyproj_available` is the module-level
`PYPROJ_AVAILABLE` flag; `mk_utm` and `mk_albers` stand for the transformers
pyproj would construct in the corresponding branches.  Whichever branch runs
may raise `ZeroDivisionError` on degenerate ranges (see the three setups). -/
def setup_projection (pyproj_available : Bool) (mk_utm mk_albers : (ℚ × ℚ) → ℚ × ℚ)
    (st : RendererState) (bounds : Bounds) (projection_type : String) :
    Except PyExn RendererState :=
  let st1 := { st with projection_type := projection_type }
  if projection_type = "utm" ∧ pyproj_available = true then
    setup_utm_projection mk_utm st1 bounds
  else if projection_type = "albers" ∧ pyproj_available = true then
    setup_albers_projection mk_albers st1 bounds
  else
    setup_equirectangular_projection_state st1 bounds

/-- `SVGRenderer._lat_lon_to_svg_equirectangular` (the dict lookups
`proj['center_lon']` etc. require the equirectangular projection dict, which
every caller inside the source guarantees). -/
def lat_lon_to_svg_equirectangular (proj : EquirectProjection) (lat lon : ℚ) : ℚ × ℚ :=
  ((lon - proj.center_lon) * proj.scale + proj.offset_x,
   (proj.center_lat - lat) * proj.scale + proj.offset_y)

/-- `SVGRenderer._lat_lon_to_svg_utm`.  A `KeyError` models the dict lookup
`proj['center_x']` on a projection dict without that key. -/
def lat_lon_to_svg_utm (tr : (ℚ × ℚ) → ℚ × ℚ) (proj : Projection) (lat lon : ℚ) :
    Except PyExn (ℚ × ℚ) :=
  match proj with
  | .planar scale center_x center_y offset_x offset_y =>
    let u := tr (lon, lat)
    .ok ((u.1 - center_x) * scale + offset_x, (center_y - u.2) * scale + offset_y)
  | .equirect _ => .error .keyError

/-- `SVGRenderer._lat_lon_to_svg_albers` (same remark as the UTM case). -/
def lat_lon_to_svg_albers (tr : (ℚ × ℚ) → ℚ × ℚ) (proj : Projection) (lat lon : ℚ) :
    Except PyExn (ℚ × ℚ) :=
  match proj with
  | .planar scale center_x center_y offset_x offset_y =>
    let a := tr (lon, lat)
    .ok ((a.1 - center_x) * scale + offset_x, offset_y - (a.2 - center_y) * scale)
  | .equirect _ => .error .keyError

/-- `SVGRenderer.lat_lon_to_svg`: `ValueError` when no projection is set up,
then dispatch on the stored projection type and transformers. -/
def lat_lon_to_svg (st : RendererState) (lat lon : ℚ) : Except PyExn (ℚ × ℚ) :=
  match st.projection with
  | none => .error .valueError
  | some proj =>
    if h1 : st.projection_type = "utm" ∧ st.utm_transformer.isSome = true then
      lat_lon_to_svg_utm (st.utm_transformer.get h1.2) proj lat lon
    else if h2 : st.projection_type = "albers" ∧ st.albers_transformer.isSome = true then
      lat_lon_to_svg_albers (st.albers_transformer.get h2.2) proj lat lon
    else
      match proj with
      | .equirect p => .ok (lat_lon_to_svg_equirectangular p lat lon)
      | .planar _ _ _ _ _ => .error .keyError

/-- `SVGRenderer.create_svg`: set up the projection, then build the `svg` root
element with its background rectangle.  An exception raised during projection
setup propagates and no document is built. -/
def create_svg (pyproj_available : Bool) (mk_utm mk_albers : (ℚ × ℚ) → ℚ × ℚ)
    (st : RendererState) (bounds : Bounds) (background_color : String)
    (projection_type : String) : Except PyExn (RendererState × SvgNode) :=
  match setup_projection pyproj_available mk_utm mk_albers st bounds projection_type with
  | .error e => .error e
  | .ok st1 =>
    let background : SvgNode :=
      .elem "rect" [("width", "100%"), ("height", "100%"), ("fill", background_color)] []
    let root : SvgNode :=
      .elem "svg"
        [("width", toString st1.width), ("height", toString st1.height),
         ("xmlns", "http://www.w3.org/2000/svg"),
         ("viewBox", "0 0 " ++ toString st1.width ++ " " ++ toString st1.height)]
        [background]
    .ok ({ st1 with svg_root := some root }, root)

end SVGRenderer

/-! ## Lemmas about the Python `int()` truncation -/

lemma pyInt_eq_floor_of_not_neg {q : ℚ} (h : ¬ q < 0) : pyInt q = ⌊q⌋ := by
  rw [pyInt, if_neg h]

lemma pyInt_intCast (i : ℤ) : pyInt (i : ℚ) = i := by
  by_cases h : (i : ℚ) < 0
  · rw [pyInt, if_pos h]
    have : ⌊-(i : ℚ)⌋ = -i := by
      rw [← Int.cast_neg, Int.floor_intCast]
    rw [this, neg_neg]
  · rw [pyInt_eq_floor_of_not_neg h, Int.floor_intCast]

/-- After clamping into `[0, resolution-1]`, truncation toward zero and
flooring agree: both are mapped to `0` on negative inputs and coincide on
non-negative inputs. -/
lemma clamp_pyInt_eq_clamp_floor (resolution : ℕ) (hres : 1 ≤ resolution) (q : ℚ) :
    max 0 (min ((resolution : ℤ) - 1) (pyInt q)) =
      max 0 (min ((resolution : ℤ) - 1) ⌊q⌋) := by
  by_cases h : q < 0
  · have h1 : ⌊q⌋ < 0 := by
      rw [Int.floor_lt]
      exact_mod_cast h
    have h2 : pyInt q ≤ 0 := by
      rw [pyInt, if_pos h]
      have h3 : (0 : ℤ) ≤ ⌊-q⌋ := by
        rw [Int.le_floor]
        push_cast
        linarith
      omega
    have h4 : (1 : ℤ) ≤ (resolution : ℤ) := by exact_mod_cast hres
    omega
  · rw [pyInt_eq_floor_of_not_neg h]

namespace HeatmapGenerator

/-- Claim C10: calling `get_heatmap_paths` before any heatmap has been
generated (`self.grid is None`) does not raise and returns the empty list. -/
theorem get_heatmap_paths_no_grid (resolution : ℕ) (bounds : Bounds)
    (lat_scale lon_scale : ℚ) :
    get_heatmap_paths resolution bounds lat_scale lon_scale none = [] := rfl

/-- Claim C2: for a bounding box with strictly positive spans and a resolution
of at least 1, the scale setup succeeds (no `ZeroDivisionError`), and on every
real input — also outside the box — `_lat_lon_to_grid` returns on each axis
the floor of the scaled offset clamped into `[0, resolution-1]`; both returned
indices lie in `[0, resolution-1]`. -/
theorem lat_lon_to_grid_clamped_floor (resolution : ℕ)
    (min_lat min_lon max_lat max_lon lat_scale lon_scale lat lon : ℚ)
    (hres : 1 ≤ resolution)
    (hlat : 0 < max_lat - min_lat) (hlon : 0 < max_lon - min_lon)
    (hls : lat_scale = (resolution : ℚ) / (max_lat - min_lat))
    (hlc : lon_scale = (resolution : ℚ) / (max_lon - min_lon)) :
    setup_grid resolution (min_lat, min_lon, max_lat, max_lon) = .ok (lat_scale, lon_scale) ∧
    lat_lon_to_grid resolution (min_lat, min_lon, max_lat, max_lon) lat_scale lon_scale lat lon
      = (max 0 (min ((resolution : ℤ) - 1) ⌊(lat - min_lat) * lat_scale⌋),
         max 0 (min ((resolution : ℤ) - 1) ⌊(lon - min_lon) * lon_scale⌋)) ∧
    0 ≤ (lat_lon_to_grid resolution (min_lat, min_lon, max_lat, max_lon)
          lat_scale lon_scale lat lon).1 ∧
    (lat_lon_to_grid resolution (min_lat, min_lon, max_lat, max_lon)
          lat_scale lon_scale lat lon).1 ≤ (resolution : ℤ) - 1 ∧
    0 ≤ (lat_lon_to_grid resolution (min_lat, min_lon, max_lat, max_lon)
          lat_scale lon_scale lat lon).2 ∧
    (lat_lon_to_grid resolution (min_lat, min_lon, max_lat, max_lon)
          lat_scale lon_scale lat lon).2 ≤ (resolution : ℤ) - 1 := by
  have h1 : ¬ (max_lat - min_lat = 0) := ne_of_gt hlat
  have h2 : ¬ (max_lon - min_lon = 0) := ne_of_gt hlon
  have h4 : (1 : ℤ) ≤ (resolution : ℤ) := by exact_mod_cast hres
  refine ⟨?_, ?_, ?_, ?_, ?_, ?_⟩
  · simp [setup_grid, h1, h2, hls, hlc]
  · simp only [lat_lon_to_grid]
    exact Prod.ext (clamp_pyInt_eq_clamp_floor _ hres _) (clamp_pyInt_eq_clamp_floor _ hres _)
  · simp only [lat_lon_to_grid]
    omega
  · simp only [lat_lon_to_grid]
    omega
  · simp only [lat_lon_to_grid]
    omega
  · simp only [lat_lon_to_grid]
    omega

/-- Witness for C2 at a concrete input (resolution 10, unit box, a point far
below the box on one axis and inside on the other). -/
theorem lat_lon_to_grid_clamped_floor_witness :
    (1 ≤ 10 ∧ (0 : ℚ) < 1 - 0 ∧ (0 : ℚ) < 1 - 0 ∧
      (10 : ℚ) = (10 : ℕ) / ((1 : ℚ) - 0) ∧ (10 : ℚ) = (10 : ℕ) / ((1 : ℚ) - 0)) ∧
    (setup_grid 10 (0, 0, 1, 1) = .ok (10, 10) ∧
     lat_lon_to_grid 10 (0, 0, 1, 1) 10 10 (-5) (1/2)
       = (max 0 (min ((10 : ℤ) - 1) ⌊((-5 : ℚ) - 0) * 10⌋),
          max 0 (min ((10 : ℤ) - 1) ⌊((1/2 : ℚ) - 0) * 10⌋)) ∧
     0 ≤ (lat_lon_to_grid 10 (0, 0, 1, 1) 10 10 (-5) (1/2)).1 ∧
     (lat_lon_to_grid 10 (0, 0, 1, 1) 10 10 (-5) (1/2)).1 ≤ (10 : ℤ) - 1 ∧
     0 ≤ (lat_lon_to_grid 10 (0, 0, 1, 1) 10 10 (-5) (1/2)).2 ∧
     (lat_lon_to_grid 10 (0, 0, 1, 1) 10 10 (-5) (1/2)).2 ≤ (10 : ℤ) - 1) :=
  ⟨⟨by norm_num, by norm_num, by norm_num, by norm_num, by norm_num⟩,
   lat_lon_to_grid_clamped_floor 10 0 0 1 1 10 10 (-5) (1/2)
     (by norm_num) (by norm_num) (by norm_num) (by norm_num) (by norm_num)⟩

/-- Claim C9: under exact arithmetic, converting an in-range grid cell to
geographic coordinates with `_grid_to_lat_lon` and back with
`_lat_lon_to_grid` is the identity. -/
theorem grid_round_trip (resolution : ℕ)
    (min_lat min_lon max_lat max_lon lat_scale lon_scale : ℚ) (i j : ℤ)
    (hres : 1 ≤ resolution)
    (hlat : 0 < max_lat - min_lat) (hlon : 0 < max_lon - min_lon)
    (hls : lat_scale = (resolution : ℚ) / (max_lat - min_lat))
    (hlc : lon_scale = (resolution : ℚ) / (max_lon - min_lon))
    (hi0 : 0 ≤ i) (hi1 : i ≤ (resolution : ℤ) - 1)
    (hj0 : 0 ≤ j) (hj1 : j ≤ (resolution : ℤ) - 1) :
    lat_lon_to_grid resolution (min_lat, min_lon, max_lat, max_lon) lat_scale lon_scale
      (grid_to_lat_lon (min_lat, min_lon, max_lat, max_lon) lat_scale lon_scale i j).1
      (grid_to_lat_lon (min_lat, min_lon, max_lat, max_lon) lat_scale lon_scale i j).2
      = (i, j) := by
  have hres0 : (0 : ℚ) < (resolution : ℚ) := by
    have : 0 < resolution := hres
    exact_mod_cast this
  have hlsne : lat_scale ≠ 0 := ne_of_gt (hls ▸ div_pos hres0 hlat)
  have hlcne : lon_scale ≠ 0 := ne_of_gt (hlc ▸ div_pos hres0 hlon)
  have e1 : (min_lat + (i : ℚ) / lat_scale - min_lat) * lat_scale = (i : ℚ) := by
    field_simp
    ring
  have e2 : (min_lon + (j : ℚ) / lon_scale - min_lon) * lon_scale = (j : ℚ) := by
    field_simp
    ring
  simp only [lat_lon_to_grid, grid_to_lat_lon]
  rw [e1, e2, pyInt_intCast, pyInt_intCast]
  have h4 : (1 : ℤ) ≤ (resolution : ℤ) := by exact_mod_cast hres
  refine Prod.ext ?_ ?_ <;> simp <;> omega

/-- Witness for C9 at a concrete input (resolution 10, unit box, cell (7,3)). -/
theorem grid_round_trip_witness :
    (1 ≤ 10 ∧ (0 : ℚ) < 1 - 0 ∧ (0 : ℚ) < 1 - 0 ∧
      (10 : ℚ) = (10 : ℕ) / ((1 : ℚ) - 0) ∧ (10 : ℚ) = (10 : ℕ) / ((1 : ℚ) - 0) ∧
      (0 : ℤ) ≤ 7 ∧ (7 : ℤ) ≤ (10 : ℤ) - 1 ∧ (0 : ℤ) ≤ 3 ∧ (3 : ℤ) ≤ (10 : ℤ) - 1) ∧
    lat_lon_to_grid 10 (0, 0, 1, 1) 10 10
      (grid_to_lat_lon (0, 0, 1, 1) 10 10 7 3).1
      (grid_to_lat_lon (0, 0, 1, 1) 10 10 7 3).2 = (7, 3) :=
  ⟨⟨by norm_num, by norm_num, by norm_num, by norm_num, by norm_num,
    by norm_num, by norm_num, by norm_num, by norm_num⟩,
   grid_round_trip 10 0 0 1 1 10 10 7 3 (by norm_num) (by norm_num) (by norm_num)
     (by norm_num) (by norm_num) (by norm_num) (by norm_num) (by norm_num) (by norm_num)⟩

/-! ## Lemmas about Python `min`/`max` over lists -/

lemma foldl_min_le_init (xs : List ℚ) (a : ℚ) : xs.foldl min a ≤ a := by
  induction xs generalizing a with
  | nil => exact le_refl a
  | cons b t ih => exact le_trans (ih (min a b)) (min_le_left a b)

lemma foldl_min_le {xs : List ℚ} {x : ℚ} (a : ℚ) (hx : x ∈ xs) : xs.foldl min a ≤ x := by
  induction xs generalizing a with
  | nil => cases hx
  | cons b t ih =>
    rcases List.mem_cons.mp hx with h | h
    · subst h
      exact le_trans (foldl_min_le_init t (min a x)) (min_le_right a x)
    · exact ih _ h

lemma le_foldl_min (xs : List ℚ) (a c : ℚ) (ha : c ≤ a) (h : ∀ x ∈ xs, c ≤ x) :
    c ≤ xs.foldl min a := by
  induction xs generalizing a with
  | nil => exact ha
  | cons b t ih =>
    exact ih (min a b) (le_min ha (h b (List.mem_cons_self b t)))
      (fun x hx => h x (List.mem_cons_of_mem b hx))

lemma init_le_foldl_max (xs : List ℚ) (a : ℚ) : a ≤ xs.foldl max a := by
  induction xs generalizing a with
  | nil => exact le_refl a
  | cons b t ih => exact le_trans (le_max_left a b) (ih (max a b))

lemma le_foldl_max {xs : List ℚ} {x : ℚ} (a : ℚ) (hx : x ∈ xs) : x ≤ xs.foldl max a := by
  induction xs generalizing a with
  | nil => cases hx
  | cons b t ih =>
    rcases List.mem_cons.mp hx with h | h
    · subst h
      exact le_trans (le_max_right a x) (init_le_foldl_max t (max a x))
    · exact ih _ h

lemma foldl_max_le (xs : List ℚ) (a c : ℚ) (ha : a ≤ c) (h : ∀ x ∈ xs, x ≤ c) :
    xs.foldl max a ≤ c := by
  induction xs generalizing a with
  | nil => exact ha
  | cons b t ih =>
    exact ih (max a b) (max_le ha (h b (List.mem_cons_self b t)))
      (fun x hx => h x (List.mem_cons_of_mem b hx))

lemma listMin_le {l : List ℚ} {x : ℚ} (hx : x ∈ l) : listMin l ≤ x := by
  cases l with
  | nil => cases hx
  | cons a t =>
    rcases List.mem_cons.mp hx with h | h
    · subst h
      exact foldl_min_le_init t x
    · exact foldl_min_le a h

lemma le_listMax {l : List ℚ} {x : ℚ} (hx : x ∈ l) : x ≤ listMax l := by
  cases l with
  | nil => cases hx
  | cons a t =>
    rcases List.mem_cons.mp hx with h | h
    · subst h
      exact init_le_foldl_max t x
    · exact le_foldl_max a h

lemma listMin_le_listMax {l : List ℚ} (hl : l ≠ []) : listMin l ≤ listMax l := by
  cases l with
  | nil => exact absurd rfl hl
  | cons a t =>
    exact le_trans (listMin_le (List.mem_cons_self a t)) (le_listMax (List.mem_cons_self a t))

lemma listMin_eq_listMax_of_pairwise_eq {l : List ℚ} (hl : l ≠ [])
    (h : ∀ x ∈ l, ∀ y ∈ l, x = y) : listMin l = listMax l := by
  cases l with
  | nil => exact absurd rfl hl
  | cons a t =>
    have hmem := List.mem_cons_self a t
    have h1 : listMin (a :: t) = a :=
      le_antisymm (listMin_le hmem)
        (le_foldl_min t a a (le_refl a)
          (fun x hx => le_of_eq (h a hmem x (List.mem_cons_of_mem a hx))))
    have h2 : listMax (a :: t) = a :=
      le_antisymm
        (foldl_max_le t a a (le_refl a)
          (fun x hx => le_of_eq (h x (List.mem_cons_of_mem a hx) a hmem)))
        (le_listMax hmem)
    rw [h1, h2]

/-- The non-empty branch of `_calculate_bounds`, written out: coordinate
extrema widened on each axis by 5% of the axis span. -/
lemma calculate_bounds_eq (gps_data : List (List (ℚ × ℚ))) (h : gps_data.flatten ≠ []) :
    calculate_bounds gps_data =
      (listMin (gps_data.flatten.map Prod.fst) -
         (listMax (gps_data.flatten.map Prod.fst) -
          listMin (gps_data.flatten.map Prod.fst)) * (5 / 100),
       listMin (gps_data.flatten.map Prod.snd) -
         (listMax (gps_data.flatten.map Prod.snd) -
          listMin (gps_data.flatten.map Prod.snd)) * (5 / 100),
       listMax (gps_data.flatten.map Prod.fst) +
         (listMax (gps_data.flatten.map Prod.fst) -
          listMin (gps_data.flatten.map Prod.fst)) * (5 / 100),
       listMax (gps_data.flatten.map Prod.snd) +
         (listMax (gps_data.flatten.map Prod.snd) -
          listMin (gps_data.flatten.map Prod.snd)) * (5 / 100)) := by
  have hne : gps_data.flatten.isEmpty = false := by
    simp [List.isEmpty_iff, h]
  simp [calculate_bounds, hne]

/-- Claim C3: on a non-empty TrackSet, `_calculate_bounds` returns the
coordinate extrema widened symmetrically by 5% of each axis span; the result
satisfies minLat ≤ maxLat and minLon ≤ maxLon, and every point lies inside the
un-margined extrema box and hence inside the returned box. -/
theorem calculate_bounds_spec (gps_data : List (List (ℚ × ℚ)))
    (h : gps_data.flatten ≠ []) :
    calculate_bounds gps_data =
      (listMin (gps_data.flatten.map Prod.fst) -
         (listMax (gps_data.flatten.map Prod.fst) -
          listMin (gps_data.flatten.map Prod.fst)) * (5 / 100),
       listMin (gps_data.flatten.map Prod.snd) -
         (listMax (gps_data.flatten.map Prod.snd) -
          listMin (gps_data.flatten.map Prod.snd)) * (5 / 100),
       listMax (gps_data.flatten.map Prod.fst) +
         (listMax (gps_data.flatten.map Prod.fst) -
          listMin (gps_data.flatten.map Prod.fst)) * (5 / 100),
       listMax (gps_data.flatten.map Prod.snd) +
         (listMax (gps_data.flatten.map Prod.snd) -
          listMin (gps_data.flatten.map Prod.snd)) * (5 / 100)) ∧
    (calculate_bounds gps_data).1 ≤ (calculate_bounds gps_data).2.2.1 ∧
    (calculate_bounds gps_data).2.1 ≤ (calculate_bounds gps_data).2.2.2 ∧
    ∀ p ∈ gps_data.flatten,
      listMin (gps_data.flatten.map Prod.fst) ≤ p.1 ∧
      p.1 ≤ listMax (gps_data.flatten.map Prod.fst) ∧
      listMin (gps_data.flatten.map Prod.snd) ≤ p.2 ∧
      p.2 ≤ listMax (gps_data.flatten.map Prod.snd) ∧
      (calculate_bounds gps_data).1 ≤ p.1 ∧ p.1 ≤ (calculate_bounds gps_data).2.2.1 ∧
      (calculate_bounds gps_data).2.1 ≤ p.2 ∧ p.2 ≤ (calculate_bounds gps_data).2.2.2 := by
  have hlats : gps_data.flatten.map Prod.fst ≠ [] := by
    simpa using h
  have hlons : gps_data.flatten.map Prod.snd ≠ [] := by
    simpa using h
  have hspanlat : 0 ≤ listMax (gps_data.flatten.map Prod.fst) -
      listMin (gps_data.flatten.map Prod.fst) :=
    sub_nonneg.mpr (listMin_le_listMax hlats)
  have hspanlon : 0 ≤ listMax (gps_data.flatten.map Prod.snd) -
      listMin (gps_data.flatten.map Prod.snd) :=
    sub_nonneg.mpr (listMin_le_listMax hlons)
  have hcb := calculate_bounds_eq gps_data h
  refine ⟨hcb, ?_, ?_, ?_⟩
  · rw [hcb]
    dsimp only
    linarith
  · rw [hcb]
    dsimp only
    linarith
  · intro p hp
    have h1 : listMin (gps_data.flatten.map Prod.fst) ≤ p.1 :=
      listMin_le (List.mem_map_of_mem Prod.fst hp)
    have h2 : p.1 ≤ listMax (gps_data.flatten.map Prod.fst) :=
      le_listMax (List.mem_map_of_mem Prod.fst hp)
    have h3 : listMin (gps_data.flatten.map Prod.snd) ≤ p.2 :=
      listMin_le (List.mem_map_of_mem Prod.snd hp)
    have h4 : p.2 ≤ listMax (gps_data.flatten.map Prod.snd) :=
      le_listMax (List.mem_map_of_mem Prod.snd hp)
    rw [hcb]
    dsimp only
    refine ⟨h1, h2, h3, h4, by linarith, by linarith, by linarith, by linarith⟩

/-- Witness for C3 at the concrete TrackSet `[[(0,0), (1,2)]]`. -/
theorem calculate_bounds_spec_witness :
    (([[((0 : ℚ), (0 : ℚ)), (1, 2)]] : List (List (ℚ × ℚ))).flatten ≠ []) ∧
    (calculate_bounds [[((0 : ℚ), (0 : ℚ)), (1, 2)]] =
      (listMin (([[((0 : ℚ), (0 : ℚ)), (1, 2)]] :
            List (List (ℚ × ℚ))).flatten.map Prod.fst) -
         (listMax (([[((0 : ℚ), (0 : ℚ)), (1, 2)]] :
              List (List (ℚ × ℚ))).flatten.map Prod.fst) -
          listMin (([[((0 : ℚ), (0 : ℚ)), (1, 2)]] :
              List (List (ℚ × ℚ))).flatten.map Prod.fst)) * (5 / 100),
       listMin (([[((0 : ℚ), (0 : ℚ)), (1, 2)]] :
            List (List (ℚ × ℚ))).flatten.map Prod.snd) -
         (listMax (([[((0 : ℚ), (0 : ℚ)), (1, 2)]] :
              List (List (ℚ × ℚ))).flatten.map Prod.snd) -
          listMin (([[((0 : ℚ), (0 : ℚ)), (1, 2)]] :
              List (List (ℚ × ℚ))).flatten.map Prod.snd)) * (5 / 100),
       listMax (([[((0 : ℚ), (0 : ℚ)), (1, 2)]] :
            List (List (ℚ × ℚ))).flatten.map Prod.fst) +
         (listMax (([[((0 : ℚ), (0 : ℚ)), (1, 2)]] :
              List (List (ℚ × ℚ))).flatten.map Prod.fst) -
          listMin (([[((0 : ℚ), (0 : ℚ)), (1, 2)]] :
              List (List (ℚ × ℚ))).flatten.map Prod.fst)) * (5 / 100),
       listMax (([[((0 : ℚ), (0 : ℚ)), (1, 2)]] :
            List (List (ℚ × ℚ))).flatten.map Prod.snd) +
         (listMax (([[((0 : ℚ), (0 : ℚ)), (1, 2)]] :
              List (List (ℚ × ℚ))).flatten.map Prod.snd) -
          listMin (([[((0 : ℚ), (0 : ℚ)), (1, 2)]] :
              List (List (ℚ × ℚ))).flatten.map Prod.snd)) * (5 / 100)) ∧
     (calculate_bounds [[((0 : ℚ), (0 : ℚ)), (1, 2)]]).1 ≤
       (calculate_bounds [[((0 : ℚ), (0 : ℚ)), (1, 2)]]).2.2.1 ∧
     (calculate_bounds [[((0 : ℚ), (0 : ℚ)), (1, 2)]]).2.1 ≤
       (calculate_bounds [[((0 : ℚ), (0 : ℚ)), (1, 2)]]).2.2.2 ∧
     ∀ p ∈ ([[((0 : ℚ), (0 : ℚ)), (1, 2)]] : List (List (ℚ × ℚ))).flatten,
       listMin (([[((0 : ℚ), (0 : ℚ)), (1, 2)]] :
            List (List (ℚ × ℚ))).flatten.map Prod.fst) ≤ p.1 ∧
       p.1 ≤ listMax (([[((0 : ℚ), (0 : ℚ)), (1, 2)]] :
            List (List (ℚ × ℚ))).flatten.map Prod.fst) ∧
       listMin (([[((0 : ℚ), (0 : ℚ)), (1, 2)]] :
            List (List (ℚ × ℚ))).flatten.map Prod.snd) ≤ p.2 ∧
       p.2 ≤ listMax (([[((0 : ℚ), (0 : ℚ)), (1, 2)]] :
            List (List (ℚ × ℚ))).flatten.map Prod.snd) ∧
       (calculate_bounds [[((0 : ℚ), (0 : ℚ)), (1, 2)]]).1 ≤ p.1 ∧
       p.1 ≤ (calculate_bounds [[((0 : ℚ), (0 : ℚ)), (1, 2)]]).2.2.1 ∧
       (calculate_bounds [[((0 : ℚ), (0 : ℚ)), (1, 2)]]).2.1 ≤ p.2 ∧
       p.2 ≤ (calculate_bounds [[((0 : ℚ), (0 : ℚ)), (1, 2)]]).2.2.2) :=
  ⟨by decide, calculate_bounds_spec [[((0 : ℚ), (0 : ℚ)), (1, 2)]] (by decide)⟩

/-- A zero span on either axis makes `_setup_grid` raise `ZeroDivisionError`. -/
lemma setup_grid_zero_span (resolution : ℕ) (bounds : Bounds)
    (h : bounds.2.2.1 - bounds.1 = 0 ∨ bounds.2.2.2 - bounds.2.1 = 0) :
    setup_grid resolution bounds = .error .zeroDivisionError := by
  rcases h with h | h
  · simp [setup_grid, h]
  · by_cases h1 : bounds.2.2.1 - bounds.1 = 0 <;> simp [setup_grid, h, h1]

/-- Claim C6 (amended): on a TrackSet with no GPS points, `_calculate_bounds`
returns the sentinel `(0,0,0,0)` without raising, and heatmap generation then
raises `ZeroDivisionError` while computing the grid scales, before the
occupancy grid is created; no `EmptyInputError` exists in the code. -/
theorem generate_heatmap_empty (resolution : ℕ) (gps_data : List (List (ℚ × ℚ)))
    (h : gps_data.flatten = []) :
    calculate_bounds gps_data = (0, 0, 0, 0) ∧
    generate_heatmap resolution none gps_data = .error .zeroDivisionError := by
  have hcb : calculate_bounds gps_data = (0, 0, 0, 0) := by
    simp [calculate_bounds, h]
  refine ⟨hcb, ?_⟩
  simp [generate_heatmap, hcb, setup_grid]

/-- Counterexample to C6 as stated: on the empty TrackSet the bounds
computation returns `(0,0,0,0)` normally (it raises nothing), and heatmap
generation fails with `ZeroDivisionError`, which is not the specification's
`EmptyInputError`. -/
theorem generate_heatmap_empty_cex :
    calculate_bounds ([] : List (List (ℚ × ℚ))) = (0, 0, 0, 0) ∧
    generate_heatmap 1000 none ([] : List (List (ℚ × ℚ))) = .error .zeroDivisionError ∧
    PyExn.zeroDivisionError ≠ PyExn.emptyInputError := by
  have hcb : calculate_bounds ([] : List (List (ℚ × ℚ))) = (0, 0, 0, 0) := rfl
  have hsg : setup_grid 1000 (calculate_bounds ([] : List (List (ℚ × ℚ))))
      = .error .zeroDivisionError := by
    rw [hcb]
    simp [setup_grid]
  exact ⟨hcb, by simp [generate_heatmap, hsg], by decide⟩

/-- Witness for the amended C6 at the empty TrackSet with resolution 5. -/
theorem generate_heatmap_empty_witness :
    (([] : List (List (ℚ × ℚ))).flatten = []) ∧
    (calculate_bounds ([] : List (List (ℚ × ℚ))) = (0, 0, 0, 0) ∧
     generate_heatmap 5 none ([] : List (List (ℚ × ℚ))) = .error .zeroDivisionError) :=
  ⟨rfl, generate_heatmap_empty 5 [] rfl⟩

/-- Claim C7 (amended): a non-empty TrackSet whose points all share one
latitude, or all share one longitude, yields a zero-span axis (the 5% margin
of a zero span is zero), and heatmap generation raises `ZeroDivisionError`
when computing the grid scales. -/
theorem generate_heatmap_degenerate (resolution : ℕ) (gps_data : List (List (ℚ × ℚ)))
    (hne : gps_data.flatten ≠ [])
    (h : (∀ p ∈ gps_data.flatten, ∀ q ∈ gps_data.flatten, p.1 = q.1) ∨
         (∀ p ∈ gps_data.flatten, ∀ q ∈ gps_data.flatten, p.2 = q.2)) :
    generate_heatmap resolution none gps_data = .error .zeroDivisionError := by
  have hcb := calculate_bounds_eq gps_data hne
  have hsg : setup_grid resolution (calculate_bounds gps_data) = .error .zeroDivisionError := by
    apply setup_grid_zero_span
    rcases h with h | h
    · left
      have hlats : gps_data.flatten.map Prod.fst ≠ [] := by
        simpa using hne
      have heq : listMin (gps_data.flatten.map Prod.fst) =
          listMax (gps_data.flatten.map Prod.fst) := by
        apply listMin_eq_listMax_of_pairwise_eq hlats
        intro x hx y hy
        obtain ⟨p, hp, rfl⟩ := List.mem_map.mp hx
        obtain ⟨q, hq, rfl⟩ := List.mem_map.mp hy
        exact h p hp q hq
      rw [hcb]
      dsimp only
      rw [← heq]
      ring
    · right
      have hlons : gps_data.flatten.map Prod.snd ≠ [] := by
        simpa using hne
      have heq : listMin (gps_data.flatten.map Prod.snd) =
          listMax (gps_data.flatten.map Prod.snd) := by
        apply listMin_eq_listMax_of_pairwise_eq hlons
        intro x hx y hy
        obtain ⟨p, hp, rfl⟩ := List.mem_map.mp hx
        obtain ⟨q, hq, rfl⟩ := List.mem_map.mp hy
        exact h p hp q hq
      rw [hcb]
      dsimp only
      rw [← heq]
      ring
  simp [generate_heatmap, hsg]

/-- Counterexample to C7 as stated: two points sharing latitude 1 make
heatmap generation raise `ZeroDivisionError`, which is not the specification's
`DegenerateBoundsError`. -/
theorem generate_heatmap_degenerate_cex :
    generate_heatmap 1000 none [[((1 : ℚ), (2 : ℚ)), (1, 3)]] = .error .zeroDivisionError ∧
    PyExn.zeroDivisionError ≠ PyExn.degenerateBoundsError := by
  have hcb : calculate_bounds [[((1 : ℚ), (2 : ℚ)), (1, 3)]] = (1, 39/20, 1, 61/20) := by
    norm_num [calculate_bounds, listMin, listMax]
  have hsg : setup_grid 1000 (calculate_bounds [[((1 : ℚ), (2 : ℚ)), (1, 3)]])
      = .error .zeroDivisionError := by
    rw [hcb]
    simp [setup_grid]
  exact ⟨by simp [generate_heatmap, hsg], by decide⟩

/-- Witness for the amended C7 at the TrackSet `[[(1,2), (1,3)]]`
(shared latitude) with resolution 7. -/
theorem generate_heatmap_degenerate_witness :
    (([[((1 : ℚ), (2 : ℚ)), (1, 3)]] : List (List (ℚ × ℚ))).flatten ≠ [] ∧
     ((∀ p ∈ ([[((1 : ℚ), (2 : ℚ)), (1, 3)]] : List (List (ℚ × ℚ))).flatten,
        ∀ q ∈ ([[((1 : ℚ), (2 : ℚ)), (1, 3)]] : List (List (ℚ × ℚ))).flatten, p.1 = q.1) ∨
      (∀ p ∈ ([[((1 : ℚ), (2 : ℚ)), (1, 3)]] : List (List (ℚ × ℚ))).flatten,
        ∀ q ∈ ([[((1 : ℚ), (2 : ℚ)), (1, 3)]] : List (List (ℚ × ℚ))).flatten, p.2 = q.2))) ∧
    generate_heatmap 7 none [[((1 : ℚ), (2 : ℚ)), (1, 3)]] = .error .zeroDivisionError :=
  ⟨⟨by decide, Or.inl (by decide)⟩,
   generate_heatmap_degenerate 7 [[((1 : ℚ), (2 : ℚ)), (1, 3)]] (by decide)
     (Or.inl (by decide))⟩

/-- One unfolding of the loop body at positive fuel. -/
lemma bresLoop_succ (x_inc y_inc dx2 dy2 : ℤ) (n : ℕ) (x y e : ℤ) :
    bresLoop x_inc y_inc dx2 dy2 (n + 1) x y e
      = (x, y) ::
        (if 0 < e then bresLoop x_inc y_inc dx2 dy2 n (x + x_inc) y (e - dy2)
         else bresLoop x_inc y_inc dx2 dy2 n x (y + y_inc) (e + dx2)) := rfl

/-- Invariant of the `_bresenham_line` loop.  With `a` x-steps and `b` y-steps
still to take and the error term at its invariant value, the loop emits
`1 + a + b` cells starting at `(x, y)`, ending at
`(x + a·x_inc, y + b·y_inc)`, and every consecutive pair is one axis-aligned
unit step. -/
lemma bresLoop_spec (dx0 dy0 : ℕ) (x_inc y_inc : ℤ) :
    ∀ (n a b : ℕ), a + b = n → a ≤ dx0 → b ≤ dy0 → ∀ (x y : ℤ),
      (bresLoop x_inc y_inc (2 * (dx0 : ℤ)) (2 * (dy0 : ℤ)) (1 + a + b) x y
          ((dx0 : ℤ) - (dy0 : ℤ) + 2 * a * dy0 - 2 * b * dx0)).head? = some (x, y) ∧
      (bresLoop x_inc y_inc (2 * (dx0 : ℤ)) (2 * (dy0 : ℤ)) (1 + a + b) x y
          ((dx0 : ℤ) - (dy0 : ℤ) + 2 * a * dy0 - 2 * b * dx0)).getLast?
        = some (x + (a : ℤ) * x_inc, y + (b : ℤ) * y_inc) ∧
      (bresLoop x_inc y_inc (2 * (dx0 : ℤ)) (2 * (dy0 : ℤ)) (1 + a + b) x y
          ((dx0 : ℤ) - (dy0 : ℤ) + 2 * a * dy0 - 2 * b * dx0)).Chain'
        (bresStep x_inc y_inc) := by
  intro n
  induction n with
  | zero =>
    intro a b hab ha hb x y
    have ha0 : a = 0 := by omega
    have hb0 : b = 0 := by omega
    subst ha0
    subst hb0
    simp [bresLoop]
  | succ n ih =>
    intro a b hab ha hb x y
    have hfuel : 1 + a + b = (n + 1) + 1 := by omega
    rw [hfuel, bresLoop_succ]
    by_cases he : (0 : ℤ) < (dx0 : ℤ) - (dy0 : ℤ) + 2 * a * dy0 - 2 * b * dx0
    · -- the loop takes an x step, so an x step must remain: a ≠ 0
      have ha' : a ≠ 0 := by
        rintro rfl
        have hb1 : (1 : ℤ) ≤ (b : ℤ) := by exact_mod_cast (by omega : 1 ≤ b)
        have hb2 : (b : ℤ) ≤ (dy0 : ℤ) := by exact_mod_cast hb
        have hd : (0 : ℤ) ≤ (dx0 : ℤ) := Int.natCast_nonneg dx0
        push_cast at he
        nlinarith [mul_le_mul_of_nonneg_right hb1 hd]
      obtain ⟨a', rfl⟩ : ∃ a', a = a' + 1 := ⟨a - 1, by omega⟩
      rw [if_pos he]
      have hn : n + 1 = 1 + a' + b := by omega
      have hee : ((dx0 : ℤ) - (dy0 : ℤ) + 2 * ((a' + 1 : ℕ) : ℤ) * dy0 - 2 * b * dx0)
          - 2 * (dy0 : ℤ)
          = (dx0 : ℤ) - (dy0 : ℤ) + 2 * (a' : ℤ) * dy0 - 2 * (b : ℤ) * dx0 := by
        push_cast
        ring
      rw [hn, hee]
      obtain ⟨ih1, ih2, ih3⟩ := ih a' b (by omega) (by omega) hb (x + x_inc) y
      cases hL : bresLoop x_inc y_inc (2 * (dx0 : ℤ)) (2 * (dy0 : ℤ)) (1 + a' + b)
          (x + x_inc) y ((dx0 : ℤ) - (dy0 : ℤ) + 2 * (a' : ℤ) * dy0 - 2 * (b : ℤ) * dx0) with
      | nil =>
        rw [hL] at ih1
        cases ih1
      | cons l ls =>
        rw [hL] at ih1 ih2 ih3
        have hl : l = (x + x_inc, y) := by
          simpa using ih1
        refine ⟨rfl, ?_, ?_⟩
        · rw [List.getLast?_cons_cons, ih2]
          have : x + x_inc + (a' : ℤ) * x_inc = x + ((a' + 1 : ℕ) : ℤ) * x_inc := by
            push_cast
            ring
          rw [this]
        · refine List.chain'_cons.mpr ⟨?_, ih3⟩
          subst hl
          exact Or.inl ⟨rfl, rfl⟩
    · -- the loop takes a y step, so a y step must remain: b ≠ 0
      have hb' : b ≠ 0 := by
        rintro rfl
        have ha1 : (1 : ℤ) ≤ (a : ℤ) := by exact_mod_cast (by omega : 1 ≤ a)
        have ha2 : (a : ℤ) ≤ (dx0 : ℤ) := by exact_mod_cast ha
        have hd : (0 : ℤ) ≤ (dy0 : ℤ) := Int.natCast_nonneg dy0
        push_neg at he
        push_cast at he
        nlinarith [mul_le_mul_of_nonneg_right ha1 hd]
      obtain ⟨b', rfl⟩ : ∃ b', b = b' + 1 := ⟨b - 1, by omega⟩
      rw [if_neg he]
      have hn : n + 1 = 1 + a + b' := by omega
      have hee : ((dx0 : ℤ) - (dy0 : ℤ) + 2 * a * dy0 - 2 * ((b' + 1 : ℕ) : ℤ) * dx0)
          + 2 * (dx0 : ℤ)
          = (dx0 : ℤ) - (dy0 : ℤ) + 2 * (a : ℤ) * dy0 - 2 * (b' : ℤ) * dx0 := by
        push_cast
        ring
      rw [hn, hee]
      obtain ⟨ih1, ih2, ih3⟩ := ih a b' (by omega) ha (by omega) x (y + y_inc)
      cases hL : bresLoop x_inc y_inc (2 * (dx0 : ℤ)) (2 * (dy0 : ℤ)) (1 + a + b')
          x (y + y_inc) ((dx0 : ℤ) - (dy0 : ℤ) + 2 * (a : ℤ) * dy0 - 2 * (b' : ℤ) * dx0) with
      | nil =>
        rw [hL] at ih1
        cases ih1
      | cons l ls =>
        rw [hL] at ih1 ih2 ih3
        have hl : l = (x, y + y_inc) := by
          simpa using ih1
        refine ⟨rfl, ?_, ?_⟩
        · rw [List.getLast?_cons_cons, ih2]
          have : y + y_inc + (b' : ℤ) * y_inc = y + ((b' + 1 : ℕ) : ℤ) * y_inc := by
            push_cast
            ring
          rw [this]
        · refine List.chain'_cons.mpr ⟨?_, ih3⟩
          subst hl
          exact Or.inr ⟨rfl, rfl⟩

/-- Claim C1: for all integer endpoints, `_bresenham_line` returns a non-empty
cell sequence that begins at `(x0, y0)`, ends at `(x1, y1)`, and in which
every pair of consecutive cells is at Chebyshev distance exactly 1 (each step
is one axis-aligned unit move), i.e. an 8-connected gap-free path. -/
theorem bresenham_line_connected (x0 y0 x1 y1 : ℤ) :
    bresenham_line x0 y0 x1 y1 ≠ [] ∧
    (bresenham_line x0 y0 x1 y1).head? = some (x0, y0) ∧
    (bresenham_line x0 y0 x1 y1).getLast? = some (x1, y1) ∧
    (bresenham_line x0 y0 x1 y1).Chain' (fun p q => chebDist p q = 1) := by
  set dx := (x1 - x0).natAbs with hdx
  set dy := (y1 - y0).natAbs with hdy
  set x_inc : ℤ := if x0 < x1 then 1 else -1 with hxi
  set y_inc : ℤ := if y0 < y1 then 1 else -1 with hyi
  have hx1 : x0 + (dx : ℤ) * x_inc = x1 := by
    rw [hxi, hdx]
    by_cases h : x0 < x1
    · rw [if_pos h]
      omega
    · rw [if_neg h]
      omega
  have hy1 : y0 + (dy : ℤ) * y_inc = y1 := by
    rw [hyi, hdy]
    by_cases h : y0 < y1
    · rw [if_pos h]
      omega
    · rw [if_neg h]
      omega
  have hxa : x_inc.natAbs = 1 := by
    rw [hxi]
    by_cases h : x0 < x1 <;> simp [h]
  have hya : y_inc.natAbs = 1 := by
    rw [hyi]
    by_cases h : y0 < y1 <;> simp [h]
  have hb : bresenham_line x0 y0 x1 y1
      = bresLoop x_inc y_inc (2 * (dx : ℤ)) (2 * (dy : ℤ)) (1 + dx + dy) x0 y0
          ((dx : ℤ) - (dy : ℤ)) := rfl
  obtain ⟨H1, H2, H3⟩ :=
    bresLoop_spec dx dy x_inc y_inc (dx + dy) dx dy rfl (le_refl dx) (le_refl dy) x0 y0
  have hinv : (dx : ℤ) - (dy : ℤ) + 2 * (dx : ℤ) * dy - 2 * (dy : ℤ) * dx
      = (dx : ℤ) - (dy : ℤ) := by ring
  rw [hinv] at H1 H2 H3
  rw [hx1, hy1] at H2
  refine ⟨?_, ?_, ?_, ?_⟩
  · rw [hb]
    intro hnil
    rw [hnil] at H1
    cases H1
  · rw [hb]
    exact H1
  · rw [hb]
    exact H2
  · rw [hb]
    refine H3.imp ?_
    intro p q hpq
    rcases hpq with ⟨h1, h2⟩ | ⟨h1, h2⟩
    · rw [chebDist, h1, h2]
      simp [hxa]
    · rw [chebDist, h1, h2]
      simp [hya]

end HeatmapGenerator

namespace MapDataProvider

/-- Claim C5: for the unit-square Polygon ring in `(lon, lat)` order and the
box `(-1, -1, 2, 2)`, the intersection test returns `true` and path extraction
returns exactly one path: the same 5 pairs in the same sequence, each swapped
to `(lat, lon)` order. -/
theorem polygon_unit_square_scenario :
    geometry_intersects_bounds
        (.polygon [[(0, 0), (0, 1), (1, 1), (1, 0), (0, 0)]]) (-1, -1, 2, 2) = true ∧
    extract_paths_from_geometry (.polygon [[(0, 0), (0, 1), (1, 1), (1, 0), (0, 0)]])
      = [[(0, 0), (1, 0), (1, 1), (0, 1), (0, 0)]] := by
  constructor
  · decide
  · rfl

end MapDataProvider

namespace SVGRenderer

/-- Claim C4: after equirectangular projection setup on a box with strictly
positive spans, the box midpoint projects exactly to the canvas center
`(width/2, height/2)` — in particular within 1px of it — and each of the four
box corners projects inside the canvas rectangle `[0, width] × [0, height]`
(the 0.9 scale factor guarantees the margin). -/
theorem equirect_center_and_corners (width height min_lat min_lon max_lat max_lon : ℚ)
    (hw : 0 < width) (hh : 0 < height)
    (hlat : 0 < max_lat - min_lat) (hlon : 0 < max_lon - min_lon) :
    lat_lon_to_svg_equirectangular
        (setup_equirectangular_projection width height (min_lat, min_lon, max_lat, max_lon))
        ((min_lat + max_lat) / 2) ((min_lon + max_lon) / 2)
      = (width / 2, height / 2) ∧
    ∀ p ∈ [(min_lat, min_lon), (min_lat, max_lon), (max_lat, min_lon), (max_lat, max_lon)],
      0 ≤ (lat_lon_to_svg_equirectangular
            (setup_equirectangular_projection width height (min_lat, min_lon, max_lat, max_lon))
            p.1 p.2).1 ∧
      (lat_lon_to_svg_equirectangular
            (setup_equirectangular_projection width height (min_lat, min_lon, max_lat, max_lon))
            p.1 p.2).1 ≤ width ∧
      0 ≤ (lat_lon_to_svg_equirectangular
            (setup_equirectangular_projection width height (min_lat, min_lon, max_lat, max_lon))
            p.1 p.2).2 ∧
      (lat_lon_to_svg_equirectangular
            (setup_equirectangular_projection width height (min_lat, min_lon, max_lat, max_lon))
            p.1 p.2).2 ≤ height := by
  have key : ∀ lat lon : ℚ,
      lat_lon_to_svg_equirectangular
        (setup_equirectangular_projection width height (min_lat, min_lon, max_lat, max_lon))
        lat lon
      = ((lon - (min_lon + max_lon) / 2) *
            (min (height / (max_lat - min_lat)) (width / (max_lon - min_lon)) * (9 / 10))
          + width / 2,
         ((min_lat + max_lat) / 2 - lat) *
            (min (height / (max_lat - min_lat)) (width / (max_lon - min_lon)) * (9 / 10))
          + height / 2) := fun _ _ => rfl
  have hs0 : 0 < min (height / (max_lat - min_lat)) (width / (max_lon - min_lon)) * (9 / 10) :=
    mul_pos (lt_min (div_pos hh hlat) (div_pos hw hlon)) (by norm_num)
  have h1 : min (height / (max_lat - min_lat)) (width / (max_lon - min_lon)) * (9 / 10)
      * (max_lat - min_lat) ≤ (9 / 10) * height := by
    have h' : min (height / (max_lat - min_lat)) (width / (max_lon - min_lon)) * (9 / 10)
        ≤ height / (max_lat - min_lat) * (9 / 10) :=
      mul_le_mul_of_nonneg_right
        (min_le_left (height / (max_lat - min_lat)) (width / (max_lon - min_lon)))
        (by norm_num)
    calc min (height / (max_lat - min_lat)) (width / (max_lon - min_lon)) * (9 / 10)
          * (max_lat - min_lat)
        ≤ height / (max_lat - min_lat) * (9 / 10) * (max_lat - min_lat) :=
          mul_le_mul_of_nonneg_right h' (le_of_lt hlat)
      _ = (9 / 10) * height := by
          field_simp
          ring
  have h2 : min (height / (max_lat - min_lat)) (width / (max_lon - min_lon)) * (9 / 10)
      * (max_lon - min_lon) ≤ (9 / 10) * width := by
    have h' : min (height / (max_lat - min_lat)) (width / (max_lon - min_lon)) * (9 / 10)
        ≤ width / (max_lon - min_lon) * (9 / 10) :=
      mul_le_mul_of_nonneg_right
        (min_le_right (height / (max_lat - min_lat)) (width / (max_lon - min_lon)))
        (by norm_num)
    calc min (height / (max_lat - min_lat)) (width / (max_lon - min_lon)) * (9 / 10)
          * (max_lon - min_lon)
        ≤ width / (max_lon - min_lon) * (9 / 10) * (max_lon - min_lon) :=
          mul_le_mul_of_nonneg_right h' (le_of_lt hlon)
      _ = (9 / 10) * width := by
          field_simp
          ring
  refine ⟨?_, ?_⟩
  · rw [key]
    have e1 : ((min_lon + max_lon) / 2 - (min_lon + max_lon) / 2) *
        (min (height / (max_lat - min_lat)) (width / (max_lon - min_lon)) * (9 / 10))
        + width / 2 = width / 2 := by ring
    have e2 : ((min_lat + max_lat) / 2 - (min_lat + max_lat) / 2) *
        (min (height / (max_lat - min_lat)) (width / (max_lon - min_lon)) * (9 / 10))
        + height / 2 = height / 2 := by ring
    rw [e1, e2]
  · intro p hp
    have hprod1 : 0 < min (height / (max_lat - min_lat)) (width / (max_lon - min_lon)) * (9 / 10)
        * (max_lat - min_lat) := mul_pos hs0 hlat
    have hprod2 : 0 < min (height / (max_lat - min_lat)) (width / (max_lon - min_lon)) * (9 / 10)
        * (max_lon - min_lon) := mul_pos hs0 hlon
    fin_cases hp <;>
      simp only [key] <;>
      exact ⟨by nlinarith, by nlinarith, by nlinarith, by nlinarith⟩

/-- Witness for C4 at `width = 1200`, `height = 800`, unit box `(0,0,1,1)`. -/
theorem equirect_center_and_corners_witness :
    ((0 : ℚ) < 1200 ∧ (0 : ℚ) < 800 ∧ (0 : ℚ) < 1 - 0 ∧ (0 : ℚ) < 1 - 0) ∧
    (lat_lon_to_svg_equirectangular
        (setup_equirectangular_projection 1200 800 (0, 0, 1, 1))
        (((0 : ℚ) + 1) / 2) (((0 : ℚ) + 1) / 2)
      = (1200 / 2, 800 / 2) ∧
     ∀ p ∈ [((0 : ℚ), (0 : ℚ)), (0, 1), (1, 0), (1, 1)],
       0 ≤ (lat_lon_to_svg_equirectangular
             (setup_equirectangular_projection 1200 800 (0, 0, 1, 1)) p.1 p.2).1 ∧
       (lat_lon_to_svg_equirectangular
             (setup_equirectangular_projection 1200 800 (0, 0, 1, 1)) p.1 p.2).1 ≤ 1200 ∧
       0 ≤ (lat_lon_to_svg_equirectangular
             (setup_equirectangular_projection 1200 800 (0, 0, 1, 1)) p.1 p.2).2 ∧
       (lat_lon_to_svg_equirectangular
             (setup_equirectangular_projection 1200 800 (0, 0, 1, 1)) p.1 p.2).2 ≤ 800) :=
  ⟨⟨by norm_num, by norm_num, by norm_num, by norm_num⟩,
   equirect_center_and_corners 1200 800 0 0 1 1
     (by norm_num) (by norm_num) (by norm_num) (by norm_num)⟩

/-- Claim C8: for a projection-kind string that is none of the three supported
kinds (`"utm"`, `"albers"`, `"equirectangular"`) and a bounding box with
strictly positive spans (so that the equirectangular scale divisions succeed,
as on any box produced by a successful render), projection setup completes
without an exception and installs the equirectangular projection, every
subsequent conversion behaves exactly as the equirectangular projection, and
`create_svg` still produces the svg document. -/
theorem unsupported_projection_falls_back (pyproj_available : Bool)
    (mk_utm mk_albers : (ℚ × ℚ) → ℚ × ℚ) (st : RendererState)
    (min_lat min_lon max_lat max_lon : ℚ)
    (projection_type background_color : String)
    (hlat : 0 < max_lat - min_lat) (hlon : 0 < max_lon - min_lon)
    (h1 : projection_type ≠ "utm") (h2 : projection_type ≠ "albers")
    (h3 : projection_type ≠ "equirectangular") :
    setup_projection pyproj_available mk_utm mk_albers st
        (min_lat, min_lon, max_lat, max_lon) projection_type
      = .ok { st with
          projection_type := projection_type
          projection := some (.equirect (setup_equirectangular_projection
            st.width st.height (min_lat, min_lon, max_lat, max_lon))) } ∧
    (∀ lat lon : ℚ,
      lat_lon_to_svg
          { st with
            projection_type := projection_type
            projection := some (.equirect (setup_equirectangular_projection
              st.width st.height (min_lat, min_lon, max_lat, max_lon))) } lat lon
        = .ok (lat_lon_to_svg_equirectangular
            (setup_equirectangular_projection st.width st.height
              (min_lat, min_lon, max_lat, max_lon)) lat lon)) ∧
    ∃ st2 : RendererState,
      create_svg pyproj_available mk_utm mk_albers st (min_lat, min_lon, max_lat, max_lon)
          background_color projection_type
        = .ok (st2,
            .elem "svg"
              [("width", toString st.width), ("height", toString st.height),
               ("xmlns", "http://www.w3.org/2000/svg"),
               ("viewBox", "0 0 " ++ toString st.width ++ " " ++ toString st.height)]
              [.elem "rect" [("width", "100%"), ("height", "100%"),
                ("fill", background_color)] []]) := by
  have hlatne : max_lat - min_lat ≠ 0 := ne_of_gt hlat
  have hlonne : max_lon - min_lon ≠ 0 := ne_of_gt hlon
  have hsetup : setup_projection pyproj_available mk_utm mk_albers st
      (min_lat, min_lon, max_lat, max_lon) projection_type
      = .ok { st with
          projection_type := projection_type
          projection := some (.equirect (setup_equirectangular_projection
            st.width st.height (min_lat, min_lon, max_lat, max_lon))) } := by
    simp [setup_projection, setup_equirectangular_projection_state, h1, h2, hlatne, hlonne]
  refine ⟨hsetup, ?_, ?_⟩
  · intro lat lon
    simp [lat_lon_to_svg, h1, h2]
  · refine ⟨{ st with
        projection_type := projection_type
        projection := some (.equirect (setup_equirectangular_projection
          st.width st.height (min_lat, min_lon, max_lat, max_lon)))
        svg_root := some (.elem "svg"
          [("width", toString st.width), ("height", toString st.height),
           ("xmlns", "http://www.w3.org/2000/svg"),
           ("viewBox", "0 0 " ++ toString st.width ++ " " ++ toString st.height)]
          [.elem "rect" [("width", "100%"), ("height", "100%"),
            ("fill", background_color)] []]) }, ?_⟩
    simp [create_svg, hsetup]

/-- Witness for C8 with the unsupported kind `"mercator"` on a fresh
1200×800 renderer and the unit box `(0, 0, 1, 1)`. -/
theorem unsupported_projection_falls_back_witness :
    ((0 : ℚ) < 1 - 0 ∧ (0 : ℚ) < 1 - 0 ∧
     ("mercator" : String) ≠ "utm" ∧ ("mercator" : String) ≠ "albers" ∧
     ("mercator" : String) ≠ "equirectangular") ∧
    (setup_projection true id id (RendererState.init 1200 800) (0, 0, 1, 1) "mercator"
      = .ok { RendererState.init 1200 800 with
          projection_type := "mercator"
          projection := some (.equirect (setup_equirectangular_projection
            (RendererState.init 1200 800).width (RendererState.init 1200 800).height
            (0, 0, 1, 1))) } ∧
     (∀ lat lon : ℚ,
       lat_lon_to_svg
           { RendererState.init 1200 800 with
             projection_type := "mercator"
             projection := some (.equirect (setup_equirectangular_projection
               (RendererState.init 1200 800).width (RendererState.init 1200 800).height
               (0, 0, 1, 1))) } lat lon
         = .ok (lat_lon_to_svg_equirectangular
             (setup_equirectangular_projection
               (RendererState.init 1200 800).width (RendererState.init 1200 800).height
               (0, 0, 1, 1)) lat lon)) ∧
     ∃ st2 : RendererState,
       create_svg true id id (RendererState.init 1200 800) (0, 0, 1, 1) "#ffffff" "mercator"
         = .ok (st2,
             .elem "svg"
               [("width", toString (RendererState.init 1200 800).width),
                ("height", toString (RendererState.init 1200 800).height),
                ("xmlns", "http://www.w3.org/2000/svg"),
                ("viewBox", "0 0 " ++ toString (RendererState.init 1200 800).width ++ " " ++
                  toString (RendererState.init 1200 800).height)]
               [.elem "rect" [("width", "100%"), ("height", "100%"),
                 ("fill", "#ffffff")] []])) :=
  ⟨⟨by norm_num, by norm_num, by decide, by decide, by decide⟩,
   unsupported_projection_falls_back true id id (RendererState.init 1200 800) 0 0 1 1
     "mercator" "#ffffff" (by norm_num) (by norm_num) (by decide) (by decide) (by decide)⟩

end SVGRenderer

end HeatMap
